import Mathlib

/-!
Shallow embedding of the recording-session orchestrator of the
`synapse-notes` repository, covering:

* `src/electron/recording.ts` — the Session Server and Session
  Orchestrator (module-level mutable state, the WebSocket connection /
  message / close / error handlers, `saveAudioData`,
  `startRecordingServer`, `startRecordingSession`,
  `stopRecordingSession`, `stopRecordingServer`);
* `src/public/recorder.js` — the client-side byte encoding of the
  finished audio blob (`Array.from(new Uint8Array(arrayBuffer))`);
* the `recordingRouter` procedures appended to `src/electron/auth.ts`
  (`startSession` / `stopSession`).

The host is single-threaded and event-driven, so the module-level
mutable variables of `recording.ts` become one explicit state record
`St`, and every event handler becomes a pure function `... → St → St`.
JavaScript promises are modelled by a list of `Settled` cells together
with an `armed` index recording which cell the module-level
`resolveAudioPromise` / `rejectAudioPromise` pair currently points at
(the two variables are always both set or both null in the source, so a
single `Option Nat` suffices).  Invoking a resolver of an
already-settled promise is a no-op at the promise level, exactly as in
JavaScript: see `settleAt`.
-/

namespace SynapseNotes

/-- Settlement state of one JavaScript promise: still pending, resolved
with an optional file path (the type of `resolveAudioPromise` is
`(path: string | null) => void`), or rejected with a reason. -/
inductive Settled where
  | pending : Settled
  | resolved : Option String → Settled
  | rejected : String → Settled
deriving DecidableEq, Repr

/-- Invoke a resolver/rejecter of promise `i`: a JavaScript promise
settles at most once, so the cell changes only if it is still
`pending`. -/
def settleAt (ps : List Settled) (i : Nat) (v : Settled) : List Settled :=
  match ps.get? i with
  | some Settled.pending => ps.set i v
  | _ => ps

/-- The module-level mutable state of `src/electron/recording.ts`
(lines 22-29), plus observable effect logs (files written, commands
sent to the client, sockets closed by the server, `console.warn`
lines).  Sockets are identified by `Nat` ids. -/
structure St where
  /-- `server` is non-null and listening. -/
  serverListening : Bool
  /-- `wss` is non-null. -/
  wssUp : Bool
  /-- `currentPort`. -/
  currentPort : Option Nat
  /-- `recordingSocket`: the currently registered RemoteClient. -/
  recordingSocket : Option Nat
  /-- `audioFilePath`. -/
  audioFilePath : Option String
  /-- which promise cell `resolveAudioPromise`/`rejectAudioPromise`
  point at; `none` means both are null. -/
  armed : Option Nat
  /-- every promise ever created by `startRecordingSession`, in
  creation order. -/
  promises : List Settled
  /-- files written to disk: (path, byte content). -/
  files : List (String × List Nat)
  /-- commands sent over the socket (`"start"` / `"stop"`). -/
  sentCommands : List String
  /-- sockets the server has called `.close()` on. -/
  closedSockets : List Nat
  /-- `console.warn` log. -/
  warnings : List String
deriving DecidableEq, Repr

/-- State at module load: every variable of lines 22-29 is null. -/
def St.initial : St :=
  { serverListening := false, wssUp := false, currentPort := none
    recordingSocket := none, audioFilePath := none, armed := none
    promises := [], files := [], sentCommands := [], closedSockets := []
    warnings := [] }

/-- Environment for one `saveAudioData` call: whether `fs.mkdir` and
`fs.writeFile` succeed, the `Date.now()` timestamp, and the error text
produced on a filesystem failure. -/
structure FsEnv where
  mkdirOk : Bool
  writeOk : Bool
  timestamp : Nat
  errText : String
deriving DecidableEq, Repr

/-- `path.join(os.tmpdir(), "daily-sync-recordings", `recording-${Date.now()}.wav`)`
with the temp dir fixed to `/tmp` (recording.ts line 175-177). -/
def recordingPath (ts : Nat) : String :=
  "/tmp/daily-sync-recordings/recording-" ++ toString ts ++ ".wav"

/-- `if (rejectAudioPromise) rejectAudioPromise(reason)`: invoke the
armed rejecter, if any.  Note the source call sites at recording.ts
lines 107, 114, 131 and 149 do NOT clear the resolver pair. -/
def rejectPending (reason : String) (s : St) : St :=
  match s.armed with
  | none => s
  | some i => { s with promises := settleAt s.promises i (Settled.rejected reason) }

/-- `saveAudioData` (recording.ts lines 172-199): mkdir the temp dir,
set `audioFilePath`, write the file, then invoke the armed resolver
with the path (warning if none is armed); on any filesystem failure,
null `audioFilePath` and invoke the armed rejecter; in all cases the
`finally` block nulls the resolver pair. -/
def saveAudioData (buffer : List Nat) (env : FsEnv) (s : St) : St :=
  if env.mkdirOk then
    let p := recordingPath env.timestamp
    if env.writeOk then
      let s1 := { s with audioFilePath := some p
                         files := s.files ++ [(p, buffer)] }
      let s2 :=
        match s1.armed with
        | some i =>
            { s1 with promises := settleAt s1.promises i (Settled.resolved (some p)) }
        | none =>
            { s1 with warnings :=
                s1.warnings ++ ["Audio saved but no promise resolver was waiting."] }
      { s2 with armed := none }
    else
      -- `fs.writeFile` threw: catch block sets `audioFilePath = null`
      -- and rejects; finally clears the resolver pair.
      let s1 := rejectPending env.errText { s with audioFilePath := none }
      { s1 with armed := none }
  else
    -- `fs.mkdir` threw: same catch/finally path.
    let s1 := rejectPending env.errText { s with audioFilePath := none }
    { s1 with armed := none }

/-- Inbound WebSocket frames as the message handler distinguishes them
(recording.ts lines 77-134). -/
inductive Msg where
  /-- `{type:"status", payload}` — logged only. -/
  | status : String → Msg
  /-- `{type:"audioBlob", payload:{data:[...]}}` with `data` an Array
  of numbers. -/
  | audioBlob : List Nat → Msg
  /-- `{type:"audioBlob", payload:{data:...}}` with `data` not an
  Array. -/
  | audioBlobBadData : Msg
  /-- `{type:"error", payload}`. -/
  | errorMsg : String → Msg
  /-- a frame that fails JSON parsing but is a raw Buffer. -/
  | rawBuffer : List Nat → Msg
  /-- a frame that fails JSON parsing and is not a Buffer. -/
  | malformed : Msg
deriving DecidableEq, Repr

/-- `Buffer.from(array)` on an array of numbers: each value is
truncated to a byte (recording.ts line 99). -/
def bufferFrom (data : List Nat) : List Nat :=
  data.map (fun n => n % 256)

/-- The per-socket `ws.on("message", ...)` handler body (recording.ts
lines 77-134).  The body never mentions `ws` itself — it consults only
the module-level state — which is why it takes no socket id. -/
def wsMessageHandler (msg : Msg) (env : FsEnv) (s : St) : St :=
  match msg with
  | Msg.status _ => s
  | Msg.audioBlob data => saveAudioData (bufferFrom data) env s
  | Msg.audioBlobBadData => rejectPending "Invalid audio data format received" s
  | Msg.errorMsg p => rejectPending p s
  | Msg.rawBuffer buf => saveAudioData buf env s
  | Msg.malformed => rejectPending "Invalid message format received" s

/-- Delivery of a frame arriving on socket `sockId`.  The message
handler closure is attached to each socket at connection time and runs
whenever that socket delivers a frame — including a frame from an
already-evicted socket whose close is still in flight.  Since the
handler body never compares `ws` with `recordingSocket`, the sender id
is ignored. -/
def dispatchMessage (_sockId : Nat) (msg : Msg) (env : FsEnv) (s : St) : St :=
  wsMessageHandler msg env s

/-- The `wss.on("connection", ...)` handler (recording.ts lines 69-75):
close any previously registered socket, then register the new one. -/
def wsConnectionHandler (sockId : Nat) (s : St) : St :=
  match s.recordingSocket with
  | some old =>
      { s with
        warnings := s.warnings ++ ["New WebSocket connection received, closing previous one."]
        closedSockets := s.closedSockets ++ [old]
        recordingSocket := some sockId }
  | none => { s with recordingSocket := some sockId }

/-- The `ws.on("close", ...)` handler (recording.ts lines 136-142):
clear the registration only if the closing socket is the registered
one. -/
def wsCloseHandler (sockId : Nat) (s : St) : St :=
  if s.recordingSocket = some sockId then { s with recordingSocket := none } else s

/-- The `ws.on("error", ...)` handler (recording.ts lines 144-150):
clear the registration only if the erroring socket is the registered
one, then invoke the armed rejecter (unconditionally). -/
def wsErrorHandler (sockId : Nat) (reason : String) (s : St) : St :=
  let s1 :=
    if s.recordingSocket = some sockId then { s with recordingSocket := none } else s
  rejectPending reason s1

/-- `startRecordingServer` (recording.ts lines 53-169): idempotent
while listening; otherwise bind the first free port of 9000-9100
(modelled as 9000) and attach the WebSocket server. -/
def startRecordingServer (s : St) : St :=
  if s.serverListening then s
  else { s with serverListening := true, wssUp := true, currentPort := some 9000 }

/-- Rejection reason of the connection-wait timeout (recording.ts
line 217). -/
def timeoutReason : String := "Timeout waiting for recorder WebSocket connection"

/-- The connection-wait poll of `startRecordingSession` (recording.ts
lines 208-220).  `sock t` is the value of the module-level
`recordingSocket` at the t-th 500 ms tick.  The source counts upward
(`checks++ > 20` rejects at the tick where the pre-increment counter
exceeds 20, i.e. the 22nd inspection); here `remaining = 21 - checks`
counts down, so the top-level call is `connectionPoll sock 0 21`:
22 inspections at ticks 0..21, roughly 10 seconds. -/
def connectionPoll (sock : Nat → Option Nat) : Nat → Nat → Except String Nat
  | tick, 0 =>
      match sock tick with
      | some id => Except.ok id
      | none => Except.error timeoutReason
  | tick, remaining + 1 =>
      match sock tick with
      | some id => Except.ok id
      | none => connectionPoll sock (tick + 1) remaining

/-- `startRecordingSession` (recording.ts lines 202-232): ensure the
server is running, open the external browser page, poll for a
RemoteClient; on timeout, reject without sending anything; once a
client is registered, send the `start` command and arm a fresh pending
promise by overwriting `resolveAudioPromise` / `rejectAudioPromise`.
The returned `Except` is the synchronous outcome: `Except.error` means
the call rejected during the connection wait, `Except.ok ()` means the
call is now awaiting the newly armed promise (the cell appended to
`promises`).  On success `recordingSocket` holds the client the poll
observed (registered by the connection handler during the wait).
Note the source performs no check whatsoever of a session already
being active: `armed` and `promises` are not consulted. -/
def startRecordingSession (sock : Nat → Option Nat) (s : St) : St × Except String Unit :=
  let s1 := startRecordingServer s
  match connectionPoll sock 0 21 with
  | Except.error e => (s1, Except.error e)
  | Except.ok id =>
      let s2 := { s1 with
                  recordingSocket := some id
                  sentCommands := s1.sentCommands ++ ["start"] }
      let s3 := { s2 with
                  promises := s2.promises ++ [Settled.pending]
                  armed := some s2.promises.length }
      (s3, Except.ok ())

/-- Synchronous outcome of `stopRecordingSession`. -/
inductive StopOutcome where
  | commandSent : StopOutcome
  | warnedNoConnection : StopOutcome
deriving DecidableEq, Repr

/-- `stopRecordingSession` (recording.ts lines 235-249): with no
registered client, log a warning and invoke the armed rejecter, then
return; otherwise send the `stop` command.  Never throws. -/
def stopRecordingSession (s : St) : St × StopOutcome :=
  match s.recordingSocket with
  | none =>
      let s1 := { s with warnings :=
          s.warnings ++ ["Stop command sent but no active WebSocket connection."] }
      (rejectPending "No active connection to stop." s1, StopOutcome.warnedNoConnection)
  | some _ =>
      ({ s with sentCommands := s.sentCommands ++ ["stop"] }, StopOutcome.commandSent)

/-- `stopRecordingServer` (recording.ts lines 252-274): close the
WebSocket server (clearing the socket reference) if present, close the
HTTP server (clearing the port) if present, and resolve either way.
Never throws. -/
def stopRecordingServer (s : St) : St :=
  let s1 := if s.wssUp then { s with wssUp := false, recordingSocket := none } else s
  if s1.serverListening then { s1 with serverListening := false, currentPort := none } else s1

/-- Result shape of the tRPC recording procedures appended to
`src/electron/auth.ts`: `{success:true, filePath?}` or
`{success:false, error}`. -/
inductive RouterResult where
  | success : Option String → RouterResult
  | failure : String → RouterResult
deriving DecidableEq, Repr

/-- The catch branch of `recordingRouter.startSession`: when the
awaited `startRecordingSession` promise rejects, first `await
stopRecordingServer()`, then return the structured failure.  The
rejection reason here is a plain string (the payload), whose
`.message` is undefined, so the `||` fallback text is returned. -/
def routerStartSessionOnReject (_reason : String) (s : St) : St × RouterResult :=
  let s1 := stopRecordingServer s
  (s1, RouterResult.failure "Failed to start recording session")

/-- `recordingRouter.stopSession`: calls `stopRecordingSession` (which
never throws) and returns `{success:true}`. -/
def routerStopSession (s : St) : St × RouterResult :=
  let s1 := (stopRecordingSession s).1
  (s1, RouterResult.success none)

/-- Client-side encoding of the finished audio blob
(`recorder.js` line 208): `Array.from(new Uint8Array(arrayBuffer))`
turns the byte buffer into a JSON array of its byte values. -/
def encodeAudioData (bytes : List (Fin 256)) : List Nat :=
  bytes.map Fin.val

/-- Host-side decoding (`Buffer.from(bufferData)`, recording.ts
line 99) viewed as producing bytes: each array entry is truncated to a
byte. -/
def bufferFromArray (data : List Nat) : List (Fin 256) :=
  data.map (fun n => (⟨n % 256, Nat.mod_lt n (by decide)⟩ : Fin 256))

/-- Concrete fixture: a state mid-session — server up, socket 0
registered as the RemoteClient, one pending promise armed. -/
def sessionActiveSt : St :=
  { St.initial with
    serverListening := true, wssUp := true, currentPort := some 9000
    recordingSocket := some 0, promises := [Settled.pending], armed := some 0 }

/-- Concrete fixture: a filesystem environment in which mkdir and the
write both succeed. -/
def fsOkEnv : FsEnv :=
  { mkdirOk := true, writeOk := true, timestamp := 42, errText := "fs failure" }

/-- Concrete fixture: same as `fsOkEnv` at a later timestamp. -/
def fsOkEnv2 : FsEnv := { fsOkEnv with timestamp := 43 }

/-- Concrete fixture: a filesystem environment in which mkdir fails. -/
def fsFailEnv : FsEnv :=
  { mkdirOk := false, writeOk := false, timestamp := 44, errText := "fs failure" }

/-- Concrete fixture: `sessionActiveSt` after a second client (socket 1)
connects — socket 0 has been evicted and closed. -/
def evictedSt : St := wsConnectionHandler 1 sessionActiveSt

/-- Concrete fixture: `sessionActiveSt` after the first `audioBlob` was
delivered and the pending result settled (resolver pair cleared). -/
def settledSt : St := wsMessageHandler (Msg.audioBlob [1, 2, 3]) fsOkEnv sessionActiveSt

end SynapseNotes

namespace SynapseNotes

/-! ### Helper lemmas -/

/-- Invoking a resolver on a promise cell known to be pending settles
that cell to the given value. -/
theorem settleAt_get_of_pending (ps : List Settled) (i : Nat) (v : Settled)
    (hp : ps.get? i = some Settled.pending) :
    (settleAt ps i v).get? i = some v := by
  unfold settleAt
  rw [hp, List.get?_eq_getElem?, List.getElem?_set_self', ← List.get?_eq_getElem?, hp]
  rfl

/-- Teardown always leaves the HTTP listener, the WebSocket server and
the port released. -/
theorem stopServer_releases (s : St) :
    (stopRecordingServer s).serverListening = false ∧
    (stopRecordingServer s).wssUp = false := by
  unfold stopRecordingServer
  cases hw : s.wssUp <;> cases hl : s.serverListening <;> simp [hw, hl]

/-! ### Claim theorems -/

/-- C3: encoding a byte buffer client-side as a JSON numeric array of
byte values (`Array.from(new Uint8Array(arrayBuffer))`, recorder.js
line 208) and decoding it host-side (`Buffer.from` of that array,
recording.ts line 99) reproduces exactly the original bytes.  The
statement is universal in the buffer, so it covers buffers of size 0,
size 1, and any size above 64 KB alike. -/
theorem audioData_roundtrip_exact (bytes : List (Fin 256)) :
    bufferFromArray (encodeAudioData bytes) = bytes := by
  unfold bufferFromArray encodeAudioData
  induction bytes with
  | nil => rfl
  | cons b bs ih =>
      simp only [List.map_cons, List.map_map] at ih ⊢
      rw [ih]
      congr 1
      exact Fin.ext (Nat.mod_eq_of_lt b.isLt)

/-- C7: `stopRecordingServer` is a total function (it never throws),
calling it on a never-started state or twice in a row is safe, and
after it completes the HTTP listener is down, the WebSocket server is
gone and no socket reference remains.  The hypothesis is the
reachable-state invariant that a registered RemoteClient only exists while the
WebSocket server is up (a socket is only ever registered by the
connection handler of a live `wss`). -/
theorem stopRecordingServer_idempotent_releases (s : St)
    (h : s.wssUp = false → s.recordingSocket = none) :
    (stopRecordingServer s).serverListening = false ∧
    (stopRecordingServer s).wssUp = false ∧
    (stopRecordingServer s).recordingSocket = none ∧
    stopRecordingServer (stopRecordingServer s) = stopRecordingServer s := by
  unfold stopRecordingServer
  cases hw : s.wssUp <;> cases hl : s.serverListening <;> simp_all

/-- C7 witness: stopping the never-started server at module-load state
is safe, releases everything and is idempotent. -/
theorem stopRecordingServer_idempotent_releases_witness :
    (stopRecordingServer St.initial).serverListening = false ∧
    (stopRecordingServer St.initial).wssUp = false ∧
    (stopRecordingServer St.initial).recordingSocket = none ∧
    stopRecordingServer (stopRecordingServer St.initial) = stopRecordingServer St.initial :=
  stopRecordingServer_idempotent_releases St.initial (fun _ => rfl)

/-- C10: the socket close and error handlers clear the registered
RemoteClient slot only when the socket that closed or errored is the
currently registered one: a delayed close (or error) of an evicted
previous socket leaves the new registration intact, while the close of
the currently registered socket does clear it. -/
theorem close_error_handlers_clear_only_current (s : St) (oldId newId : Nat)
    (reason : String) (hcur : s.recordingSocket = some newId) (hne : oldId ≠ newId) :
    (wsCloseHandler oldId s).recordingSocket = some newId ∧
    (wsErrorHandler oldId reason s).recordingSocket = some newId ∧
    (wsCloseHandler newId s).recordingSocket = none := by
  have hno : ¬ s.recordingSocket = some oldId := by
    rw [hcur]
    intro hcon
    exact hne (Option.some.inj hcon).symm
  refine ⟨?_, ?_, ?_⟩
  · unfold wsCloseHandler
    rw [if_neg hno]
    exact hcur
  · unfold wsErrorHandler
    rw [if_neg hno]
    cases hA : s.armed <;> simp [rejectPending, hA, hcur]
  · unfold wsCloseHandler
    rw [if_pos hcur]

/-- C10 witness: in the concrete evicted state (socket 0 replaced by
socket 1), a late close or error of socket 0 does not clear socket 1's
registration, while a close of socket 1 does. -/
theorem close_error_handlers_clear_only_current_witness :
    (wsCloseHandler 0 evictedSt).recordingSocket = some 1 ∧
    (wsErrorHandler 0 "socket error" evictedSt).recordingSocket = some 1 ∧
    (wsCloseHandler 1 evictedSt).recordingSocket = none :=
  close_error_handlers_clear_only_current evictedSt 0 1 "socket error" rfl (by decide)

/-- Helper: if the socket slot is empty at every tick the poll
inspects, the poll rejects with the timeout reason. -/
theorem connectionPoll_all_none (sock : Nat → Option Nat) :
    ∀ remaining tick, (∀ d, d ≤ remaining → sock (tick + d) = none) →
    connectionPoll sock tick remaining = Except.error timeoutReason := by
  intro remaining
  induction remaining with
  | zero =>
      intro tick h
      have h0 : sock tick = none := by simpa using h 0 (Nat.le_refl 0)
      unfold connectionPoll
      rw [h0]
  | succ r ih =>
      intro tick h
      have h0 : sock tick = none := by simpa using h 0 (Nat.zero_le _)
      unfold connectionPoll
      rw [h0]
      refine ih (tick + 1) (fun d hd => ?_)
      have e : tick + 1 + d = tick + (d + 1) := by omega
      rw [e]
      exact h (d + 1) (by omega)

/-- C5: if no RemoteClient registers at any tick of the bounded
connection wait (22 polls at 500 ms intervals, roughly 10 seconds
total), `startRecordingSession` rejects with the connection-timeout
error; no start command is ever sent, no file is written, and no
pending promise is armed. -/
theorem startSession_timeout_sends_nothing (sock : Nat → Option Nat) (s : St)
    (h : ∀ t, t ≤ 21 → sock t = none) :
    (startRecordingSession sock s).2 = Except.error timeoutReason ∧
    (startRecordingSession sock s).1.sentCommands = s.sentCommands ∧
    (startRecordingSession sock s).1.files = s.files ∧
    (startRecordingSession sock s).1.promises = s.promises ∧
    (startRecordingSession sock s).1.armed = s.armed := by
  have hp : connectionPoll sock 0 21 = Except.error timeoutReason :=
    connectionPoll_all_none sock 21 0 (fun d hd => by simpa using h d hd)
  unfold startRecordingSession
  rw [hp]
  unfold startRecordingServer
  cases hl : s.serverListening <;> simp [hl]

/-- C5 witness: with a client that never connects, the session start at
module-load state times out having sent and written nothing. -/
theorem startSession_timeout_sends_nothing_witness :
    (startRecordingSession (fun _ => none) St.initial).2 = Except.error timeoutReason ∧
    (startRecordingSession (fun _ => none) St.initial).1.sentCommands = St.initial.sentCommands ∧
    (startRecordingSession (fun _ => none) St.initial).1.files = St.initial.files ∧
    (startRecordingSession (fun _ => none) St.initial).1.promises = St.initial.promises ∧
    (startRecordingSession (fun _ => none) St.initial).1.armed = St.initial.armed :=
  startSession_timeout_sends_nothing (fun _ => none) St.initial (fun _ _ => rfl)

/-- C6: an error status received while the session's result is pending
rejects the pending promise with exactly the received message, and the
router's catch branch stops the Server (listener and channel both down
in the state it returns) before handing the structured failure back to
the caller. -/
theorem errorStatus_rejects_then_stops_server (m : String) (env : FsEnv) (s : St)
    (i : Nat) (hA : s.armed = some i) (hp : s.promises.get? i = some Settled.pending) :
    (wsMessageHandler (Msg.errorMsg m) env s).promises.get? i
        = some (Settled.rejected m) ∧
    (routerStartSessionOnReject m (wsMessageHandler (Msg.errorMsg m) env s)).1.serverListening
        = false ∧
    (routerStartSessionOnReject m (wsMessageHandler (Msg.errorMsg m) env s)).1.wssUp
        = false ∧
    (routerStartSessionOnReject m (wsMessageHandler (Msg.errorMsg m) env s)).2
        = RouterResult.failure "Failed to start recording session" := by
  have h1 : wsMessageHandler (Msg.errorMsg m) env s
      = { s with promises := settleAt s.promises i (Settled.rejected m) } := by
    unfold wsMessageHandler rejectPending
    rw [hA]
  refine ⟨?_, ?_, ?_, rfl⟩
  · rw [h1]
    exact settleAt_get_of_pending s.promises i _ hp
  · exact (stopServer_releases _).1
  · exact (stopServer_releases _).2

/-- C6 witness: the client reports the error "denied" while the result
of the concrete active session is pending. -/
theorem errorStatus_rejects_then_stops_server_witness :
    (wsMessageHandler (Msg.errorMsg "denied") fsOkEnv sessionActiveSt).promises.get? 0
        = some (Settled.rejected "denied") ∧
    (routerStartSessionOnReject "denied"
        (wsMessageHandler (Msg.errorMsg "denied") fsOkEnv sessionActiveSt)).1.serverListening
        = false ∧
    (routerStartSessionOnReject "denied"
        (wsMessageHandler (Msg.errorMsg "denied") fsOkEnv sessionActiveSt)).1.wssUp
        = false ∧
    (routerStartSessionOnReject "denied"
        (wsMessageHandler (Msg.errorMsg "denied") fsOkEnv sessionActiveSt)).2
        = RouterResult.failure "Failed to start recording session" :=
  errorStatus_rejects_then_stops_server "denied" fsOkEnv sessionActiveSt 0 rfl rfl

/-- C8: calling `stopRecordingSession` with no registered RemoteClient
is a soft, warning-level outcome: the function (total, hence it cannot
throw) returns the warning outcome, appends the warning line, leaves
the written files and the stored audio path untouched, and the tRPC
wrapper completes without an error result. -/
theorem stopSession_no_client_soft_warning (s : St) (h : s.recordingSocket = none) :
    (stopRecordingSession s).2 = StopOutcome.warnedNoConnection ∧
    (stopRecordingSession s).1.files = s.files ∧
    (stopRecordingSession s).1.audioFilePath = s.audioFilePath ∧
    (stopRecordingSession s).1.warnings
        = s.warnings ++ ["Stop command sent but no active WebSocket connection."] ∧
    (routerStopSession s).2 = RouterResult.success none := by
  have hd : stopRecordingSession s
      = (rejectPending "No active connection to stop."
          { s with warnings :=
              s.warnings ++ ["Stop command sent but no active WebSocket connection."] },
         StopOutcome.warnedNoConnection) := by
    unfold stopRecordingSession
    rw [h]
  refine ⟨by rw [hd], ?_, ?_, ?_, rfl⟩ <;>
    rw [hd] <;> cases hA : s.armed <;> simp [rejectPending, hA]

/-- C8 witness: stopping at module-load state, where no client was ever
registered. -/
theorem stopSession_no_client_soft_warning_witness :
    (stopRecordingSession St.initial).2 = StopOutcome.warnedNoConnection ∧
    (stopRecordingSession St.initial).1.files = St.initial.files ∧
    (stopRecordingSession St.initial).1.audioFilePath = St.initial.audioFilePath ∧
    (stopRecordingSession St.initial).1.warnings
        = St.initial.warnings ++ ["Stop command sent but no active WebSocket connection."] ∧
    (routerStopSession St.initial).2 = RouterResult.success none :=
  stopSession_no_client_soft_warning St.initial rfl

/-- C9: when `saveAudioData` resolves the pending result with a path,
the file at that path with exactly the delivered bytes has already been
written (the write precedes the resolver invocation in the handler),
and the stored path points at it; when directory creation or the file
write fails, the stored path is reset to null, no file is recorded, and
the pending result is rejected instead — so a path to an unwritten file
is never handed to the resolver. -/
theorem saveAudioData_resolves_only_written (buffer : List Nat) (env : FsEnv)
    (s : St) (i : Nat) (hA : s.armed = some i)
    (hp : s.promises.get? i = some Settled.pending) :
    (env.mkdirOk = true → env.writeOk = true →
      (saveAudioData buffer env s).promises.get? i
          = some (Settled.resolved (some (recordingPath env.timestamp))) ∧
      (recordingPath env.timestamp, buffer) ∈ (saveAudioData buffer env s).files ∧
      (saveAudioData buffer env s).audioFilePath = some (recordingPath env.timestamp)) ∧
    ((env.mkdirOk = false ∨ env.writeOk = false) →
      (saveAudioData buffer env s).audioFilePath = none ∧
      (saveAudioData buffer env s).files = s.files ∧
      (saveAudioData buffer env s).promises.get? i
          = some (Settled.rejected env.errText)) := by
  constructor
  · intro hm hw
    have hred : saveAudioData buffer env s
        = { s with audioFilePath := some (recordingPath env.timestamp)
                   files := s.files ++ [(recordingPath env.timestamp, buffer)]
                   promises := settleAt s.promises i
                      (Settled.resolved (some (recordingPath env.timestamp)))
                   armed := none } := by
      unfold saveAudioData
      rw [hm, hw]
      simp [hA]
    rw [hred]
    refine ⟨?_, ?_, ?_⟩
    · exact settleAt_get_of_pending s.promises i _ hp
    · simp
    · rfl
  · intro hfail
    have hred : saveAudioData buffer env s
        = { s with audioFilePath := none
                   promises := settleAt s.promises i (Settled.rejected env.errText)
                   armed := none } := by
      unfold saveAudioData
      cases hm : env.mkdirOk with
      | false =>
          simp [rejectPending, hA]
      | true =>
          have hw : env.writeOk = false := by
            rcases hfail with hf | hf
            · rw [hm] at hf
              cases hf
            · exact hf
          rw [hw]
          simp [rejectPending, hA]
    rw [hred]
    exact ⟨rfl, rfl, settleAt_get_of_pending s.promises i _ hp⟩

/-- C9 witness: at the concrete active session, a successful save
records the file delivered bytes under the resolved path, and a failed
mkdir leaves the stored path null. -/
theorem saveAudioData_resolves_only_written_witness :
    ((recordingPath 42, [1, 2]) ∈ (saveAudioData [1, 2] fsOkEnv sessionActiveSt).files) ∧
    (saveAudioData [1, 2] fsFailEnv sessionActiveSt).audioFilePath = none :=
  ⟨((saveAudioData_resolves_only_written [1, 2] fsOkEnv sessionActiveSt 0 rfl rfl).1
      rfl rfl).2.1,
   ((saveAudioData_resolves_only_written [1, 2] fsFailEnv sessionActiveSt 0 rfl rfl).2
      (Or.inl rfl)).1⟩

/-- C1 counterexample: with the concrete session active (its pending
result armed and outstanding at index 0), a second call to
`startRecordingSession` does not fail with a conflict-class error: it
returns successfully and re-arms the resolver pair at the freshly
appended promise (index 1).  The source performs no session-active
check of any kind. -/
theorem startSession_conflict_counterexample :
    (startRecordingSession (fun _ => some 1) sessionActiveSt).2 = Except.ok () ∧
    (startRecordingSession (fun _ => some 1) sessionActiveSt).1.armed = some 1 :=
  ⟨rfl, rfl⟩

/-- C1 amended: `startRecordingSession` performs no conflict check: a
call made while a session is already active (a pending promise armed at
index `i`) does not reject; once a client registers during the
connection wait it returns successfully, sends the start command and
overwrites the resolver pair to point at a freshly appended pending
promise, while the first session's promise cell is left exactly as it
was — orphaned, since the resolvers that could settle it are gone. -/
theorem startSession_no_conflict_overwrites (sock : Nat → Option Nat) (s : St)
    (i id : Nat) (_hA : s.armed = some i) (hi : i < s.promises.length)
    (hpoll : connectionPoll sock 0 21 = Except.ok id) :
    (startRecordingSession sock s).2 = Except.ok () ∧
    (startRecordingSession sock s).1.armed = some s.promises.length ∧
    (startRecordingSession sock s).1.armed ≠ some i ∧
    (startRecordingSession sock s).1.promises.get? i = s.promises.get? i ∧
    (startRecordingSession sock s).1.sentCommands = s.sentCommands ++ ["start"] := by
  have hsrv : (startRecordingServer s).promises = s.promises ∧
      (startRecordingServer s).sentCommands = s.sentCommands := by
    unfold startRecordingServer
    cases hl : s.serverListening <;> simp
  unfold startRecordingSession
  rw [hpoll]
  refine ⟨rfl, ?_, ?_, ?_, ?_⟩
  · show some (startRecordingServer s).promises.length = some s.promises.length
    rw [hsrv.1]
  · show some (startRecordingServer s).promises.length ≠ some i
    rw [hsrv.1]
    intro hcon
    have := Option.some.inj hcon
    omega
  · show ((startRecordingServer s).promises ++ [Settled.pending]).get? i
        = s.promises.get? i
    rw [hsrv.1, List.get?_eq_getElem?, List.get?_eq_getElem?]
    exact List.getElem?_append_left hi
  · show (startRecordingServer s).sentCommands ++ ["start"] = s.sentCommands ++ ["start"]
    rw [hsrv.2]

/-- C1 amended witness: concrete run of the amended statement on the
active-session fixture, with a client registering at the first poll. -/
theorem startSession_no_conflict_overwrites_witness :
    (startRecordingSession (fun _ => some 2) sessionActiveSt).2 = Except.ok () ∧
    (startRecordingSession (fun _ => some 2) sessionActiveSt).1.armed
        = some sessionActiveSt.promises.length ∧
    (startRecordingSession (fun _ => some 2) sessionActiveSt).1.armed ≠ some 0 ∧
    (startRecordingSession (fun _ => some 2) sessionActiveSt).1.promises.get? 0
        = sessionActiveSt.promises.get? 0 ∧
    (startRecordingSession (fun _ => some 2) sessionActiveSt).1.sentCommands
        = sessionActiveSt.sentCommands ++ ["start"] :=
  startSession_no_conflict_overwrites (fun _ => some 2) sessionActiveSt 0 2
    rfl (by decide) rfl

/-- C2 counterexample: in the concrete state where socket 0 was
registered and then evicted by socket 1 (socket 0 closed, socket 1
currently registered, the session result pending), a late `audioBlob`
frame arriving on the evicted socket 0 still settles the pending result
and still writes a file — the stale client's message is not ignored. -/
theorem stale_client_message_counterexample :
    evictedSt.recordingSocket = some 1 ∧
    evictedSt.closedSockets = [0] ∧
    (dispatchMessage 0 (Msg.audioBlob [7, 8, 9]) fsOkEnv evictedSt).promises.get? 0
        = some (Settled.resolved (some (recordingPath 42))) ∧
    (dispatchMessage 0 (Msg.audioBlob [7, 8, 9]) fsOkEnv evictedSt).files.length = 1 ∧
    evictedSt.files.length = 0 :=
  ⟨rfl, rfl, rfl, rfl, rfl⟩

/-- C2 amended: on every client replacement the previously registered
socket is closed (last-connection-wins), but late messages from an
evicted client are NOT ignored: the message handler body never compares
the delivering socket with the registered one, so a frame is processed
identically whichever socket it arrives on. -/
theorem single_peer_amended (sockA sockB : Nat) (msg : Msg) (env : FsEnv)
    (s : St) (oldId newId : Nat) (hone : s.recordingSocket = some oldId) :
    dispatchMessage sockA msg env s = dispatchMessage sockB msg env s ∧
    (wsConnectionHandler newId s).recordingSocket = some newId ∧
    (wsConnectionHandler newId s).closedSockets = s.closedSockets ++ [oldId] := by
  refine ⟨rfl, ?_, ?_⟩ <;>
    · unfold wsConnectionHandler
      rw [hone]

/-- C2 amended witness: concrete replacement of socket 0 by socket 1 in
the active session, and sender-independence of a concrete frame. -/
theorem single_peer_amended_witness :
    dispatchMessage 0 (Msg.audioBlob [7, 8, 9]) fsOkEnv sessionActiveSt
        = dispatchMessage 1 (Msg.audioBlob [7, 8, 9]) fsOkEnv sessionActiveSt ∧
    (wsConnectionHandler 1 sessionActiveSt).recordingSocket = some 1 ∧
    (wsConnectionHandler 1 sessionActiveSt).closedSockets
        = sessionActiveSt.closedSockets ++ [0] :=
  single_peer_amended 0 1 (Msg.audioBlob [7, 8, 9]) fsOkEnv sessionActiveSt 0 1 rfl

/-- C4 counterexample: in the concrete state where the session's result
has already been settled (resolver pair cleared by the first delivery),
a second `audioBlob` is not merely logged and dropped: it has the
further observable effect of writing the duplicate audio to a second
file.  (It does not re-settle the result: the promises are unchanged.) -/
theorem duplicate_audioReady_counterexample :
    settledSt.armed = none ∧
    settledSt.files.length = 1 ∧
    (wsMessageHandler (Msg.audioBlob [4, 5]) fsOkEnv2 settledSt).files.length = 2 ∧
    (wsMessageHandler (Msg.audioBlob [4, 5]) fsOkEnv2 settledSt).promises
        = settledSt.promises :=
  ⟨rfl, rfl, rfl, rfl⟩

/-- C4 amended: the pending result is settled at most once — a second
`audioReady` arriving after settlement does not re-settle it and does
not throw, and the missing resolver is logged as a warning; but the
delivery is not effect-free: before the warning the handler still
writes the duplicate audio to a fresh file and updates the stored
path. -/
theorem duplicate_audioReady_amended (buffer : List Nat) (env : FsEnv) (s : St)
    (h : s.armed = none) (hm : env.mkdirOk = true) (hw : env.writeOk = true) :
    (saveAudioData buffer env s).promises = s.promises ∧
    (saveAudioData buffer env s).warnings
        = s.warnings ++ ["Audio saved but no promise resolver was waiting."] ∧
    (saveAudioData buffer env s).files
        = s.files ++ [(recordingPath env.timestamp, buffer)] ∧
    (saveAudioData buffer env s).audioFilePath = some (recordingPath env.timestamp) := by
  unfold saveAudioData
  rw [hm, hw]
  simp [h]

/-- C4 amended witness: concrete duplicate delivery after the first
settlement. -/
theorem duplicate_audioReady_amended_witness :
    (saveAudioData [4, 5] fsOkEnv2 settledSt).promises = settledSt.promises ∧
    (saveAudioData [4, 5] fsOkEnv2 settledSt).warnings
        = settledSt.warnings ++ ["Audio saved but no promise resolver was waiting."] ∧
    (saveAudioData [4, 5] fsOkEnv2 settledSt).files
        = settledSt.files ++ [(recordingPath fsOkEnv2.timestamp, [4, 5])] ∧
    (saveAudioData [4, 5] fsOkEnv2 settledSt).audioFilePath
        = some (recordingPath fsOkEnv2.timestamp) :=
  duplicate_audioReady_amended [4, 5] fsOkEnv2 settledSt rfl rfl rfl

end SynapseNotes
